import Mathlib

/-
Verification development for the viewport-transform core of the
image-comparison tool (src/components/image-compare.tsx).

Numbers are modelled as rationals.  Every definition below is a direct
shallow embedding of the corresponding TypeScript code; line numbers in
the doc comments refer to src/components/image-compare.tsx.
-/

/-- View state of one panel: user zoom scale and pixel offsets
(interface ViewState, lines 31-35). -/
structure ViewState where
  scale : ℚ
  offsetX : ℚ
  offsetY : ℚ
deriving DecidableEq

/-- Bounding client rect of a panel container, as returned by
getBoundingClientRect in the pinch and wheel handlers. -/
structure Rect where
  left : ℚ
  top : ℚ
  width : ℚ
  height : ℚ
deriving DecidableEq

/-- Media information of a loaded file (interface MediaInfo, lines 40-46).
The blob URL and the image/video tag are omitted: they never enter the
transform arithmetic. -/
structure MediaInfo where
  width : ℚ
  height : ℚ
  baseScale : ℚ
deriving DecidableEq

/-- Memo captured at the start of a pinch gesture (onPinch, lines 159-172). -/
structure PinchMemo where
  initialScale : ℚ
  initialOffsetX : ℚ
  initialOffsetY : ℚ
  mouseX : ℚ
  mouseY : ℚ
deriving DecidableEq

/-- Clamp a value into an interval, the spec's clamp(x, lo, hi); in the
source it appears as Math.min(Math.max(x, lo), hi). -/
def clamp (x lo hi : ℚ) : ℚ :=
  min (max x lo) hi

/-- Zoom about a pivot point, the zoom branch of onWheel (lines 214-224)
with the wheel step generalised to an arbitrary factor:
newScale is the scale multiplied by the factor and clamped into
[0.1, 10] before scaleDiff is computed, and the offsets are compensated
so the pivot stays fixed. -/
def zoomAt (t : ViewState) (factor px py : ℚ) : ViewState :=
  let newScale := min (max (t.scale * factor) (1/10)) 10
  let scaleDiff := newScale / t.scale
  { scale := newScale
    offsetX := px - (px - t.offsetX) * scaleDiff
    offsetY := py - (py - t.offsetY) * scaleDiff }

/-- Drag handler (onDrag, lines 142-153).  Returns the view state passed
to onViewChange (none when the handler returns without calling it) and
the memo retained by the gesture library for the next event.  The memo
defaults to (0, 0) when absent, as in the source destructuring. -/
def onDrag (media : Option MediaInfo) (first : Bool) (mx my : ℚ)
    (memo : Option (ℚ × ℚ)) (viewState : ViewState) :
    Option ViewState × Option (ℚ × ℚ) :=
  match media with
  | none => (none, memo)
  | some _ =>
    let m := if first then (viewState.offsetX, viewState.offsetY) else memo.getD (0, 0)
    (some { viewState with offsetX := m.1 + mx, offsetY := m.2 + my }, some m)

/-- Pinch handler (onPinch, lines 155-189).  On the first event it only
captures the memo (initial scale, initial offsets, pivot relative to the
container center); on later events it rescales from the memo, clamping
into [0.1, 10] before computing scaleDiff.  A later event without a memo
cannot occur in the gesture library (every gesture starts with a first
event); it is modelled as producing no view change. -/
def onPinch (media : Option MediaInfo) (first : Bool) (ox oy ms : ℚ)
    (rect : Option Rect) (memo : Option PinchMemo) (viewState : ViewState) :
    Option ViewState × Option PinchMemo :=
  match media with
  | none => (none, memo)
  | some _ =>
    if first then
      match rect with
      | none => (none, some ⟨viewState.scale, 0, 0, 0, 0⟩)
      | some r =>
        (none, some ⟨viewState.scale, viewState.offsetX, viewState.offsetY,
                     ox - r.left - r.width / 2, oy - r.top - r.height / 2⟩)
    else
      match memo with
      | none => (none, memo)
      | some m =>
        let newScale := min (max (m.initialScale * ms) (1/10)) 10
        let scaleDiff := newScale / m.initialScale
        (some { scale := newScale
                offsetX := m.mouseX - (m.mouseX - m.initialOffsetX) * scaleDiff
                offsetY := m.mouseY - (m.mouseY - m.initialOffsetY) * scaleDiff },
         memo)

/-- Wheel handler (onWheel, lines 191-233).  Returns the view state passed
to onViewChange, or none when the handler returns without calling it
(no media, ctrl held, or missing container rect in the zoom branch).
A delta with magnitude below 40 is treated as a trackpad pan; otherwise
the event is a mouse-wheel zoom with fixed step 0.9 (scroll down) or
1.1 (scroll up), applied about the cursor via zoomAt. -/
def onWheel (media : Option MediaInfo) (ctrlKey : Bool) (dx dy : ℚ)
    (rect : Option Rect) (clientX clientY : ℚ) (viewState : ViewState) :
    Option ViewState :=
  match media with
  | none => none
  | some _ =>
    if ctrlKey then none
    else if |dy| < 40 then
      some { viewState with
              offsetX := viewState.offsetX - dx
              offsetY := viewState.offsetY - dy }
    else
      let delta : ℚ := if dy > 0 then 9/10 else 11/10
      match rect with
      | none => none
      | some r =>
        some (zoomAt viewState delta (clientX - r.left - r.width / 2)
                (clientY - r.top - r.height / 2))

/-- Scale actually applied to the rendered media (line 243):
the user scale multiplied by the auto-fit base scale when media is
loaded, the bare user scale otherwise. -/
def displayScale (media : Option MediaInfo) (viewState : ViewState) : ℚ :=
  match media with
  | some m => viewState.scale * m.baseScale
  | none => viewState.scale

/-- Screen position (relative to the panel center) at which a transform
displays a content point, mirroring the CSS transform
translate(offsetX, offsetY) scale(displayScale) with origin at the
center (line 269); b is the media baseScale factor of displayScale. -/
def renderPoint (b : ℚ) (t : ViewState) (p : ℚ × ℚ) : ℚ × ℚ :=
  (p.1 * (t.scale * b) + t.offsetX, p.2 * (t.scale * b) + t.offsetY)

/-- Props of one media panel that are observable by its gesture handlers
(MediaPanelProps, lines 61-72, restricted to the fields the transform
logic can see).  The isLoading flag is carried so that statements about
the loading state can be made; the source handlers never read it. -/
structure MediaPanelProps where
  media : Option MediaInfo
  viewState : ViewState
  isLoading : Bool

/-- Raw gesture event hitting one panel, with the session memo the
gesture library would hand back to the handler. -/
inductive GestureEvent where
  | drag (first : Bool) (mx my : ℚ) (memo : Option (ℚ × ℚ))
  | pinch (first : Bool) (ox oy ms : ℚ) (rect : Option Rect) (memo : Option PinchMemo)
  | wheel (ctrlKey : Bool) (dx dy : ℚ) (rect : Option Rect) (clientX clientY : ℚ)

/-- View state a panel passes to onViewChange for one gesture event
(none when no call is made).  This is the dispatch performed by
useGesture (lines 139-240); enabled is the presence of media. -/
def panelGesture (p : MediaPanelProps) (ev : GestureEvent) : Option ViewState :=
  match ev with
  | .drag first mx my memo => (onDrag p.media first mx my memo p.viewState).1
  | .pinch first ox oy ms rect memo =>
      (onPinch p.media first ox oy ms rect memo p.viewState).1
  | .wheel ctrl dx dy rect cx cy => onWheel p.media ctrl dx dy rect cx cy p.viewState

/-- Identifies one of the two panels. -/
inductive PanelSide where
  | left
  | right
deriving DecidableEq

/-- State of the ImageCompare component relevant to the transform engine:
both view states, the sync flag, the loaded media, and the per-panel
gesture session memos held by the gesture library. -/
structure AppState where
  leftView : ViewState
  rightView : ViewState
  isSynced : Bool
  leftMedia : Option MediaInfo
  rightMedia : Option MediaInfo
  leftPinch : Option PinchMemo
  rightPinch : Option PinchMemo
  leftDrag : Option (ℚ × ℚ)
  rightDrag : Option (ℚ × ℚ)

/-- Handle a view change coming from one panel (handleViewChange,
lines 474-508).  The source panel is set to the new state; when sync is
locked, the sibling is updated by the scale ratio and the offset deltas
of the change, with no clamping. -/
def handleViewChange (side : PanelSide) (newState : ViewState) (s : AppState) : AppState :=
  match side with
  | .left =>
    let oldState := s.leftView
    if s.isSynced then
      let sr := newState.scale / oldState.scale
      let dx := newState.offsetX - oldState.offsetX
      let dy := newState.offsetY - oldState.offsetY
      { s with leftView := newState
               rightView := { scale := s.rightView.scale * sr
                              offsetX := s.rightView.offsetX + dx
                              offsetY := s.rightView.offsetY + dy } }
    else
      { s with leftView := newState }
  | .right =>
    let oldState := s.rightView
    if s.isSynced then
      let sr := newState.scale / oldState.scale
      let dx := newState.offsetX - oldState.offsetX
      let dy := newState.offsetY - oldState.offsetY
      { s with rightView := newState
               leftView := { scale := s.leftView.scale * sr
                             offsetX := s.leftView.offsetX + dx
                             offsetY := s.leftView.offsetY + dy } }
    else
      { s with rightView := newState }

/-- Reset action (handleReset, lines 660-665): both panels go back to
the initial state and sync is locked again. -/
def handleReset (s : AppState) : AppState :=
  { s with leftView := { scale := 1, offsetX := 0, offsetY := 0 }
           rightView := { scale := 1, offsetX := 0, offsetY := 0 }
           isSynced := true }

/-- Per-panel update of the zoom-in button (newStateFn inside
handleZoomIn, lines 670-678). -/
def zoomInStep (prev : ViewState) : ViewState :=
  { prev with scale := min (prev.scale * (5/4)) 10 }

/-- Per-panel update of the zoom-out button (newStateFn inside
handleZoomOut, lines 683-691). -/
def zoomOutStep (prev : ViewState) : ViewState :=
  { prev with scale := max (prev.scale / (5/4)) (1/10) }

/-- Zoom-in button (handleZoomIn, lines 670-678): the same step is
applied to both panels in one update. -/
def handleZoomIn (s : AppState) : AppState :=
  { s with leftView := zoomInStep s.leftView, rightView := zoomInStep s.rightView }

/-- Zoom-out button (handleZoomOut, lines 683-691): the same step is
applied to both panels in one update. -/
def handleZoomOut (s : AppState) : AppState :=
  { s with leftView := zoomOutStep s.leftView, rightView := zoomOutStep s.rightView }

/-- Base-scale computation (calculateBaseScale, lines 543-554): without a
container measurement the result is 1; otherwise the usable area is half
the client width minus 32 by the client height minus 32, and the result
is the least of the two fit ratios and 1. -/
def calculateBaseScale (container : Option (ℚ × ℚ)) (mediaWidth mediaHeight : ℚ) : ℚ :=
  match container with
  | none => 1
  | some (clientWidth, clientHeight) =>
    let containerWidth := clientWidth / 2 - 32
    let containerHeight := clientHeight - 32
    let scaleX := containerWidth / mediaWidth
    let scaleY := containerHeight / mediaHeight
    min (min scaleX scaleY) 1

/-- Whether any media is loaded (hasMedia, line 693); the toolbar buttons
are disabled when it is false. -/
def hasMediaLoaded (s : AppState) : Bool :=
  s.leftMedia.isSome || s.rightMedia.isSome

/-- One user-level input to the component: completed uploads, the toolbar
buttons (active only when some media is loaded), and raw gestures on a
panel. -/
inductive AppAction where
  | uploadLeft (m : MediaInfo)
  | uploadRight (m : MediaInfo)
  | toggleSync
  | reset
  | zoomIn
  | zoomOut
  | drag (side : PanelSide) (first : Bool) (mx my : ℚ)
  | pinch (side : PanelSide) (first : Bool) (ox oy ms : ℚ) (rect : Option Rect)
  | wheel (side : PanelSide) (ctrlKey : Bool) (dx dy : ℚ) (rect : Option Rect)
      (clientX clientY : ℚ)

/-- Apply one action to the component state.  Gestures run the panel
handler on the panel's media, session memo and view state; when the
handler produces a view change it goes through handleViewChange, which
propagates to the sibling when sync is locked. -/
def applyAction (a : AppAction) (s : AppState) : AppState :=
  match a with
  | .uploadLeft m => { s with leftMedia := some m }
  | .uploadRight m => { s with rightMedia := some m }
  | .toggleSync => if hasMediaLoaded s then { s with isSynced := !s.isSynced } else s
  | .reset => if hasMediaLoaded s then handleReset s else s
  | .zoomIn => if hasMediaLoaded s then handleZoomIn s else s
  | .zoomOut => if hasMediaLoaded s then handleZoomOut s else s
  | .drag side first mx my =>
    match side with
    | .left =>
      let r := onDrag s.leftMedia first mx my s.leftDrag s.leftView
      let s1 := { s with leftDrag := r.2 }
      match r.1 with
      | none => s1
      | some nv => handleViewChange .left nv s1
    | .right =>
      let r := onDrag s.rightMedia first mx my s.rightDrag s.rightView
      let s1 := { s with rightDrag := r.2 }
      match r.1 with
      | none => s1
      | some nv => handleViewChange .right nv s1
  | .pinch side first ox oy ms rect =>
    match side with
    | .left =>
      let r := onPinch s.leftMedia first ox oy ms rect s.leftPinch s.leftView
      let s1 := { s with leftPinch := r.2 }
      match r.1 with
      | none => s1
      | some nv => handleViewChange .left nv s1
    | .right =>
      let r := onPinch s.rightMedia first ox oy ms rect s.rightPinch s.rightView
      let s1 := { s with rightPinch := r.2 }
      match r.1 with
      | none => s1
      | some nv => handleViewChange .right nv s1
  | .wheel side ctrl dx dy rect cx cy =>
    match side with
    | .left =>
      match onWheel s.leftMedia ctrl dx dy rect cx cy s.leftView with
      | none => s
      | some nv => handleViewChange .left nv s
    | .right =>
      match onWheel s.rightMedia ctrl dx dy rect cx cy s.rightView with
      | none => s
      | some nv => handleViewChange .right nv s

/-- Apply a list of actions from left to right. -/
def applyActions (acts : List AppAction) (s : AppState) : AppState :=
  acts.foldl (fun st a => applyAction a st) s

/-- Initial component state (lines 410-445): both views at scale 1 with
zero offsets, sync locked, no media, no gesture session in flight. -/
def initAppState : AppState :=
  { leftView := { scale := 1, offsetX := 0, offsetY := 0 }
    rightView := { scale := 1, offsetX := 0, offsetY := 0 }
    isSynced := true
    leftMedia := none
    rightMedia := none
    leftPinch := none
    rightPinch := none
    leftDrag := none
    rightDrag := none }

/-- Sample loaded media used by concrete scenarios. -/
def mediaA : MediaInfo :=
  { width := 100, height := 100, baseScale := 1 }

/-- Sample container rect used by concrete scenarios. -/
def rect0 : Rect :=
  { left := 0, top := 0, width := 0, height := 0 }

/-- Sample synced state for the locked-sync example: panel A at
scale 2 offset (10, 0), panel B at the initial state. -/
def c4State : AppState :=
  { initAppState with
      leftView := { scale := 2, offsetX := 10, offsetY := 0 }
      rightView := { scale := 1, offsetX := 0, offsetY := 0 } }

/-- State with both panels loaded, sync locked, and scales 9 and 1, at
which the zoom-in button clamps only the left panel. -/
def c9State : AppState :=
  { initAppState with
      leftView := { scale := 9, offsetX := 0, offsetY := 0 }
      rightView := { scale := 1, offsetX := 0, offsetY := 0 }
      leftMedia := some mediaA
      rightMedia := some mediaA }

/-- Input trace reaching a locked state with panel scales 1 and 10 and
then wheel-zooming the left panel in: upload to both panels, unlock,
pinch the right panel up to the scale cap, re-lock, wheel zoom left. -/
def c1Trace : List AppAction :=
  [ .uploadLeft mediaA, .uploadRight mediaA, .toggleSync,
    .pinch .right true 0 0 1 (some rect0),
    .pinch .right false 0 0 20 (some rect0),
    .toggleSync,
    .wheel .left false 0 (-100) (some rect0) 0 0 ]

/-- C2: the wheel-zoom operation clamps the scale before computing the
offset compensation, matching the spec formula for zoomAt, and the
spec's worked example holds. -/
theorem C2_zoomAt_formula (t : ViewState) (f px py : ℚ)
    (h1 : 1/10 ≤ t.scale) (h2 : t.scale ≤ 10) (hf : 0 < f) :
    zoomAt t f px py =
      { scale := clamp (t.scale * f) (1/10) 10
        offsetX := px - (px - t.offsetX) * (clamp (t.scale * f) (1/10) 10 / t.scale)
        offsetY := py - (py - t.offsetY) * (clamp (t.scale * f) (1/10) 10 / t.scale) } ∧
    zoomAt { scale := 1, offsetX := 0, offsetY := 0 } (11/10) 50 0 =
      { scale := 11/10, offsetX := -5, offsetY := 0 } := by
  constructor
  · rfl
  · norm_num [zoomAt, min_def, max_def, ViewState.mk.injEq]

/-- Witness for C2 at the spec's worked example. -/
theorem C2_zoomAt_formula_witness :
    zoomAt { scale := 1, offsetX := 0, offsetY := 0 } (11/10) 50 0 =
      { scale := 11/10, offsetX := -5, offsetY := 0 } :=
  (C2_zoomAt_formula { scale := 1, offsetX := 0, offsetY := 0 } (11/10) 50 0
    (by norm_num) (by norm_num) (by norm_num)).2

/-- C3: pivot stability.  A content point that the old transform renders
at the pivot is rendered at the same pivot by the transform produced by
zoomAt, exactly in rational arithmetic, whether or not the scale was
clamped. -/
theorem C3_pivot_stability (t : ViewState) (factor px py b : ℚ)
    (hs1 : 1/10 ≤ t.scale) (hs2 : t.scale ≤ 10) (hb : b ≠ 0)
    (p : ℚ × ℚ) (hp : renderPoint b t p = (px, py)) :
    renderPoint b (zoomAt t factor px py) p = (px, py) := by
  have hs0 : t.scale ≠ 0 := ne_of_gt (lt_of_lt_of_le (by norm_num) hs1)
  simp only [renderPoint, Prod.mk.injEq] at hp ⊢
  obtain ⟨h1, h2⟩ := hp
  simp only [zoomAt]
  constructor
  · have hx : p.1 * (t.scale * b) = px - t.offsetX := by linarith
    rw [← hx]
    field_simp
    ring
  · have hy : p.2 * (t.scale * b) = py - t.offsetY := by linarith
    rw [← hy]
    field_simp
    ring

/-- Witness for C3: zooming by 2 about the pivot (50, 0) keeps the
content point rendered there fixed. -/
theorem C3_pivot_stability_witness :
    renderPoint 1 (zoomAt { scale := 1, offsetX := 0, offsetY := 0 } 2 50 0) (50, 0)
      = (50, 0) :=
  C3_pivot_stability { scale := 1, offsetX := 0, offsetY := 0 } 2 50 0 1
    (by norm_num) (by norm_num) (by norm_num) (50, 0) (by norm_num [renderPoint])

/-- C4: locked-sync propagation from either panel updates the sibling by
the exact ratio/delta formula, leaves the source panel at the new state,
and both panels end at the same ratio to their own previous scales. -/
theorem C4_sync_propagation (s : AppState) (ns : ViewState)
    (hsync : s.isSynced = true)
    (hL : s.leftView.scale ≠ 0) (hR : s.rightView.scale ≠ 0) :
    (((handleViewChange .left ns s).rightView =
       { scale := s.rightView.scale * (ns.scale / s.leftView.scale)
         offsetX := s.rightView.offsetX + (ns.offsetX - s.leftView.offsetX)
         offsetY := s.rightView.offsetY + (ns.offsetY - s.leftView.offsetY) }) ∧
     ((handleViewChange .left ns s).leftView = ns) ∧
     ((handleViewChange .left ns s).rightView.scale / s.rightView.scale =
       (handleViewChange .left ns s).leftView.scale / s.leftView.scale)) ∧
    (((handleViewChange .right ns s).leftView =
       { scale := s.leftView.scale * (ns.scale / s.rightView.scale)
         offsetX := s.leftView.offsetX + (ns.offsetX - s.rightView.offsetX)
         offsetY := s.leftView.offsetY + (ns.offsetY - s.rightView.offsetY) }) ∧
     ((handleViewChange .right ns s).rightView = ns) ∧
     ((handleViewChange .right ns s).leftView.scale / s.leftView.scale =
       (handleViewChange .right ns s).rightView.scale / s.rightView.scale)) := by
  refine ⟨⟨?_, ?_, ?_⟩, ?_, ?_, ?_⟩
  · simp [handleViewChange, hsync]
  · simp [handleViewChange, hsync]
  · simp only [handleViewChange, hsync, if_pos]
    rw [mul_comm]
    exact mul_div_cancel_right₀ _ hR
  · simp [handleViewChange, hsync]
  · simp [handleViewChange, hsync]
  · simp only [handleViewChange, hsync, if_pos]
    rw [mul_comm]
    exact mul_div_cancel_right₀ _ hL

/-- Witness for C4, exercising both directions from the state with panel
scales 2 and 1: the spec's worked example (panel A going from scale 2
offset (10, 0) to scale 4 offset (30, 0) takes panel B from the initial
state to scale 2 offset (20, 0)), and a change on panel B from the
initial state to scale 2 offset (5, 0) takes panel A to scale 4 offset
(15, 0). -/
theorem C4_sync_propagation_witness :
    (handleViewChange .left { scale := 4, offsetX := 30, offsetY := 0 } c4State).rightView
      = { scale := 2, offsetX := 20, offsetY := 0 } ∧
    (handleViewChange .right { scale := 2, offsetX := 5, offsetY := 0 } c4State).leftView
      = { scale := 4, offsetX := 15, offsetY := 0 } := by
  constructor
  · have h := ((C4_sync_propagation c4State { scale := 4, offsetX := 30, offsetY := 0 }
      rfl (by norm_num [c4State, initAppState]) (by norm_num [c4State, initAppState])).1).1
    rw [h]
    norm_num [c4State, initAppState, ViewState.mk.injEq]
  · have h := ((C4_sync_propagation c4State { scale := 2, offsetX := 5, offsetY := 0 }
      rfl (by norm_num [c4State, initAppState]) (by norm_num [c4State, initAppState])).2).1
    rw [h]
    norm_num [c4State, initAppState, ViewState.mk.injEq]

/-- C5: wheel classification with loaded media.  Ctrl-wheel is ignored;
a delta magnitude below 40 pans without touching the scale; otherwise
the event zooms by the fixed factor 0.9 when the delta is positive and
1.1 otherwise, independent of the magnitude. -/
theorem C5_wheel_classification (ctrl : Bool) (dx dy cx cy : ℚ) (r : Rect)
    (m : MediaInfo) (v : ViewState) :
    (onWheel (some m) true dx dy (some r) cx cy v = none) ∧
    (ctrl = false → |dy| < 40 →
      onWheel (some m) ctrl dx dy (some r) cx cy v =
        some { v with offsetX := v.offsetX - dx, offsetY := v.offsetY - dy }) ∧
    (ctrl = false → 40 ≤ |dy| → 0 < dy →
      onWheel (some m) ctrl dx dy (some r) cx cy v =
        some (zoomAt v (9/10) (cx - r.left - r.width / 2) (cy - r.top - r.height / 2))) ∧
    (ctrl = false → 40 ≤ |dy| → dy ≤ 0 →
      onWheel (some m) ctrl dx dy (some r) cx cy v =
        some (zoomAt v (11/10) (cx - r.left - r.width / 2) (cy - r.top - r.height / 2))) := by
  refine ⟨?_, ?_, ?_, ?_⟩
  · simp [onWheel]
  · intro hc h
    subst hc
    simp [onWheel, h]
  · intro hc h h3
    subst hc
    simp [onWheel, not_lt.mpr h, h3]
  · intro hc h h3
    subst hc
    simp [onWheel, not_lt.mpr h, not_lt.mpr h3]

/-- Witness for C5: a wheel notch of delta 100 with ctrl released zooms
out by the fixed 0.9 step about the cursor. -/
theorem C5_wheel_classification_witness :
    onWheel (some mediaA) false 0 100 (some rect0) 0 0
        { scale := 1, offsetX := 0, offsetY := 0 } =
      some (zoomAt { scale := 1, offsetX := 0, offsetY := 0 } (9/10)
        (0 - rect0.left - rect0.width / 2) (0 - rect0.top - rect0.height / 2)) :=
  (C5_wheel_classification false 0 100 0 0 rect0 mediaA
      { scale := 1, offsetX := 0, offsetY := 0 }).2.2.1
    rfl (by norm_num) (by norm_num)

/-- C6: the base-scale computation returns 1 without a container
measurement; with one it is the least of the two fit ratios and 1, and
for positive media and usable container dimensions it is positive and
at most 1. -/
theorem C6_base_scale (mw mh w h : ℚ) (hmw : 0 < mw) (hmh : 0 < mh)
    (hw : 0 < w / 2 - 32) (hh : 0 < h - 32) :
    calculateBaseScale none mw mh = 1 ∧
    calculateBaseScale (some (w, h)) mw mh =
      min (min ((w / 2 - 32) / mw) ((h - 32) / mh)) 1 ∧
    0 < calculateBaseScale (some (w, h)) mw mh ∧
    calculateBaseScale (some (w, h)) mw mh ≤ 1 := by
  refine ⟨rfl, rfl, ?_, ?_⟩
  · show 0 < min (min ((w / 2 - 32) / mw) ((h - 32) / mh)) 1
    exact lt_min (lt_min (div_pos hw hmw) (div_pos hh hmh)) one_pos
  · show min (min ((w / 2 - 32) / mw) ((h - 32) / mh)) 1 ≤ 1
    exact min_le_right _ _

/-- Witness for C6 at the spec's worked example: media 2000 by 1000 in
a container of client size 800 by 600. -/
theorem C6_base_scale_witness :
    0 < calculateBaseScale (some (800, 600)) 2000 1000 ∧
    calculateBaseScale (some (800, 600)) 2000 1000 ≤ 1 :=
  (C6_base_scale 2000 1000 800 600 (by norm_num) (by norm_num)
    (by norm_num) (by norm_num)).2.2

/-- C7: reset yields the initial transform for both panels regardless of
the prior state, and applying it twice equals applying it once. -/
theorem C7_reset_idempotent (s : AppState) :
    (handleReset s).leftView = { scale := 1, offsetX := 0, offsetY := 0 } ∧
    (handleReset s).rightView = { scale := 1, offsetX := 0, offsetY := 0 } ∧
    handleReset (handleReset s) = handleReset s :=
  ⟨rfl, rfl, rfl⟩

/-- C10: a trackpad pan (media loaded, ctrl released, delta magnitude
below 40) keeps the scale and moves the offsets by the negated wheel
delta. -/
theorem C10_trackpad_pan (m : MediaInfo) (dx dy cx cy : ℚ) (rect : Option Rect)
    (v : ViewState) (h : |dy| < 40) :
    onWheel (some m) false dx dy rect cx cy v =
      some { v with offsetX := v.offsetX - dx, offsetY := v.offsetY - dy } := by
  simp [onWheel, h]

/-- Witness for C10: a small wheel delta pans the content opposite to
the reported delta. -/
theorem C10_trackpad_pan_witness :
    onWheel (some mediaA) false 3 4 none 0 0 { scale := 1, offsetX := 10, offsetY := 20 } =
      some { scale := 1, offsetX := 7, offsetY := 16 } := by
  have h := C10_trackpad_pan mediaA 3 4 0 0 none
    { scale := 1, offsetX := 10, offsetY := 20 } (by norm_num)
  rw [h]
  norm_num [ViewState.mk.injEq]

/-- C1 counterexample: after uploading to both panels, unlocking,
pinching the right panel to the scale cap 10, re-locking, and wheel
zooming the left panel in by one notch, the sync propagation leaves the
right panel at scale 11, outside [0.1, 10]. -/
theorem C1_scale_bound_counterexample :
    (applyActions c1Trace initAppState).rightView.scale = 11 ∧
    ¬ (applyActions c1Trace initAppState).rightView.scale ≤ 10 := by
  norm_num [c1Trace, applyActions, applyAction, initAppState, mediaA, rect0,
    hasMediaLoaded, onPinch, onWheel, zoomAt, handleViewChange,
    min_def, max_def, List.foldl]

/-- C1 amended: wheel zoom and pinch zoom always clamp the mutated
panel's scale into [0.1, 10], and the zoom buttons keep a scale already
in [0.1, 10] inside it; but the locked-sync propagation multiplies the
sibling's scale by the source ratio without clamping. -/
theorem C1_scale_bound_amended :
    (∀ (t : ViewState) (f px py : ℚ),
      1/10 ≤ (zoomAt t f px py).scale ∧ (zoomAt t f px py).scale ≤ 10) ∧
    (∀ (media : Option MediaInfo) (first : Bool) (ox oy ms : ℚ)
        (rect : Option Rect) (memo : Option PinchMemo) (v : ViewState),
      ∀ nv ∈ (onPinch media first ox oy ms rect memo v).1,
        1/10 ≤ nv.scale ∧ nv.scale ≤ 10) ∧
    (∀ v : ViewState, 1/10 ≤ v.scale → v.scale ≤ 10 →
      ((1/10 ≤ (zoomInStep v).scale ∧ (zoomInStep v).scale ≤ 10) ∧
       (1/10 ≤ (zoomOutStep v).scale ∧ (zoomOutStep v).scale ≤ 10))) ∧
    (∀ (s : AppState) (ns : ViewState), s.isSynced = true →
      (handleViewChange .left ns s).rightView.scale
        = s.rightView.scale * (ns.scale / s.leftView.scale)) := by
  refine ⟨fun t f px py => ⟨?_, ?_⟩, ?_, ?_, ?_⟩
  · show (1:ℚ)/10 ≤ min (max (t.scale * f) (1/10)) 10
    exact le_min (le_max_right _ _) (by norm_num)
  · show min (max (t.scale * f) (1/10)) (10:ℚ) ≤ 10
    exact min_le_right _ _
  · intro media first ox oy ms rect memo v nv hnv
    cases media with
    | none => simp [onPinch] at hnv
    | some m0 =>
      cases first with
      | true => cases rect <;> simp [onPinch] at hnv
      | false =>
        cases memo with
        | none => simp [onPinch] at hnv
        | some m =>
          simp [onPinch, Option.mem_def] at hnv
          subst hnv
          exact ⟨le_min (le_trans (by norm_num) (le_max_right _ _)) (by norm_num),
            min_le_right _ _⟩
  · intro v h1 h2
    refine ⟨⟨?_, ?_⟩, ?_, ?_⟩
    · show (1:ℚ)/10 ≤ min (v.scale * (5/4)) 10
      exact le_min (by linarith) (by norm_num)
    · show min (v.scale * (5/4)) (10:ℚ) ≤ 10
      exact min_le_right _ _
    · show (1:ℚ)/10 ≤ max (v.scale / (5/4)) (1/10)
      exact le_max_right _ _
    · show max (v.scale / (5/4)) (1/10) ≤ (10:ℚ)
      exact max_le (by linarith) (by norm_num)
  · intro s ns h
    simp [handleViewChange, h]

/-- Witness for the amended C1: a pinch continuation that requests a
twentyfold zoom from scale 1 is clamped to scale 10, inside the
bounds. -/
theorem C1_scale_bound_amended_witness :
    (1:ℚ)/10 ≤ (ViewState.mk 10 0 0).scale ∧ (ViewState.mk 10 0 0).scale ≤ 10 := by
  refine C1_scale_bound_amended.2.1 (some mediaA) false 0 0 20 (some rect0)
    (some (PinchMemo.mk 1 0 0 0 0)) (ViewState.mk 1 0 0) (ViewState.mk 10 0 0) ?_
  norm_num [onPinch, Option.mem_def, min_def, max_def, ViewState.mk.injEq]

/-- C8 counterexample: with media loaded and the loading flag set (the
state while a replacement upload decodes), a drag still produces a view
change to a different transform, so gestures are not disabled by the
loading state. -/
theorem C8_gesture_noop_counterexample :
    panelGesture
        { media := some mediaA
          viewState := { scale := 1, offsetX := 0, offsetY := 0 }
          isLoading := true }
        (.drag true 5 0 none) =
      some { scale := 1, offsetX := 5, offsetY := 0 } ∧
    ({ scale := 1, offsetX := 5, offsetY := 0 } : ViewState) ≠
      { scale := 1, offsetX := 0, offsetY := 0 } := by
  constructor
  · norm_num [panelGesture, onDrag, ViewState.mk.injEq]
  · norm_num [ViewState.mk.injEq]

/-- C8 amended: every gesture event is a no-op exactly while the panel
has no loaded media, regardless of the loading flag. -/
theorem C8_gesture_noop_amended (p : MediaPanelProps) (ev : GestureEvent)
    (h : p.media = none) : panelGesture p ev = none := by
  cases ev <;> simp [panelGesture, onDrag, onPinch, onWheel, h]

/-- Witness for the amended C8: a drag on a panel with no media while
the loading flag is set produces no view change. -/
theorem C8_gesture_noop_amended_witness :
    panelGesture
        { media := none
          viewState := { scale := 1, offsetX := 0, offsetY := 0 }
          isLoading := true }
        (.drag true 5 0 none) = none :=
  C8_gesture_noop_amended _ _ rfl

/-- C9 counterexample: with panel scales 9 and 1, the zoom-in button
clamps the left panel at 10 while the right panel reaches 5/4, so the
new-to-old scale ratios differ across the panels. -/
theorem C9_zoom_buttons_counterexample :
    (handleZoomIn c9State).leftView.scale / c9State.leftView.scale = 10/9 ∧
    (handleZoomIn c9State).rightView.scale / c9State.rightView.scale = 5/4 ∧
    (handleZoomIn c9State).leftView.scale / c9State.leftView.scale ≠
      (handleZoomIn c9State).rightView.scale / c9State.rightView.scale := by
  norm_num [handleZoomIn, zoomInStep, c9State, initAppState, min_def]

/-- C9 amended: the zoom buttons apply the fixed steps 1.25 and 1/1.25
to both panels in one update, each panel clamped independently; whenever
neither panel hits its clamp, the new-to-old scale ratio is the same
1.25 (respectively 0.8) on both panels. -/
theorem C9_zoom_buttons_amended (s : AppState)
    (hL0 : s.leftView.scale ≠ 0) (hR0 : s.rightView.scale ≠ 0) :
    ((handleZoomIn s).leftView.scale = min (s.leftView.scale * (5/4)) 10 ∧
     (handleZoomIn s).rightView.scale = min (s.rightView.scale * (5/4)) 10 ∧
     (handleZoomOut s).leftView.scale = max (s.leftView.scale / (5/4)) (1/10) ∧
     (handleZoomOut s).rightView.scale = max (s.rightView.scale / (5/4)) (1/10)) ∧
    (s.leftView.scale * (5/4) ≤ 10 → s.rightView.scale * (5/4) ≤ 10 →
      (handleZoomIn s).leftView.scale / s.leftView.scale = 5/4 ∧
      (handleZoomIn s).rightView.scale / s.rightView.scale = 5/4) ∧
    (1/10 ≤ s.leftView.scale / (5/4) → 1/10 ≤ s.rightView.scale / (5/4) →
      (handleZoomOut s).leftView.scale / s.leftView.scale = 4/5 ∧
      (handleZoomOut s).rightView.scale / s.rightView.scale = 4/5) := by
  refine ⟨⟨rfl, rfl, rfl, rfl⟩, ?_, ?_⟩
  · intro h1 h2
    constructor
    · show min (s.leftView.scale * (5/4)) 10 / s.leftView.scale = 5/4
      rw [min_eq_left h1, mul_comm]
      exact mul_div_cancel_right₀ _ hL0
    · show min (s.rightView.scale * (5/4)) 10 / s.rightView.scale = 5/4
      rw [min_eq_left h2, mul_comm]
      exact mul_div_cancel_right₀ _ hR0
  · intro h1 h2
    constructor
    · show max (s.leftView.scale / (5/4)) (1/10) / s.leftView.scale = 4/5
      rw [max_eq_left h1]
      have hd : s.leftView.scale / (5/4) = (4/5) * s.leftView.scale := by ring
      rw [hd]
      exact mul_div_cancel_right₀ _ hL0
    · show max (s.rightView.scale / (5/4)) (1/10) / s.rightView.scale = 4/5
      rw [max_eq_left h2]
      have hd : s.rightView.scale / (5/4) = (4/5) * s.rightView.scale := by ring
      rw [hd]
      exact mul_div_cancel_right₀ _ hR0

/-- Witness for the amended C9: with panel scales 2 and 1 neither panel
hits the clamp and both ratios are 5/4. -/
theorem C9_zoom_buttons_amended_witness :
    (handleZoomIn c4State).leftView.scale / c4State.leftView.scale = 5/4 ∧
    (handleZoomIn c4State).rightView.scale / c4State.rightView.scale = 5/4 :=
  (C9_zoom_buttons_amended c4State (by norm_num [c4State, initAppState])
      (by norm_num [c4State, initAppState])).2.1
    (by norm_num [c4State, initAppState]) (by norm_num [c4State, initAppState])
